import Mathlib

/-!
Verification of the OpenMAX JPEG decoder pipeline (`omxjpgdec.py`).

The module pairs an `image_decode` component with a `resize` component to
decode a JPEG image to a chosen color format and size.  The hardware-binding
layer (`omxilc`) is external to the verified source: its calls are modelled
as oracle parameters carrying each call's result, and its enumerated
constants follow the OpenMAX IL standard.  All arithmetic in the source is
Python 2 integer arithmetic on non-negative operands, embedded as `Nat`.
-/

namespace OmxJpgDec

/-! ### Constants from the external `omxilc` module (OpenMAX IL standard) -/

/-- OpenMAX IL color format code for packed-planar YUV 4:2:0. -/
def OMX_COLOR_FormatYUV420PackedPlanar : Nat := 20

/-- OpenMAX IL color format code for 16-bit RGB565. -/
def OMX_COLOR_Format16bitRGB565 : Nat := 6

/-- OpenMAX IL (Broadcom extension) color format code for 32-bit ABGR8888. -/
def OMX_COLOR_Format32bitABGR8888 : Nat := 0x7F000001

/-- OpenMAX IL color format code `Unused`. -/
def OMX_COLOR_FormatUnused : Nat := 0

/-- OpenMAX IL image coding code `Unused`. -/
def OMX_IMAGE_CodingUnused : Nat := 0

/-- OpenMAX IL image coding code for JPEG. -/
def OMX_IMAGE_CodingJPEG : Nat := 2

/-- OpenMAX IL success code. -/
def OMX_ErrorNone : Nat := 0

/-- OpenMAX IL error code for corrupt stream data. -/
def OMX_ErrorStreamCorrupt : Nat := 0x8000100B

/-- OpenMAX IL component state `Loaded`. -/
def OMX_StateLoaded : Nat := 1

/-- OpenMAX IL component state `Idle`. -/
def OMX_StateIdle : Nat := 2

/-- OpenMAX IL component state `Executing`. -/
def OMX_StateExecuting : Nat := 3

/-- Modelled from the spec: the key set of the external `omxilc` module's
`omx_image_coding_names` table, the enumerated set of supported image coding
formats (`Unused`, `AutoDetect`, `JPEG`, and the other standard codings).
Claims depend only on membership of a requested coding in this set. -/
def omx_image_coding_names : List Nat := [0, 1, 2, 3, 4, 5, 6, 7, 8, 9]

/-- Modelled from the spec: the key set of the external `omxilc` module's
`omx_color_format_names` table, the enumerated set of supported color
formats.  It contains the standard OpenMAX IL color codes, among them the
three output formats named by the spec (packed-planar YUV420 = 20,
RGB565 = 6, ABGR8888 = 0x7F000001).  Claims depend only on membership. -/
def omx_color_format_names : List Nat :=
  [0, 1, 2, 3, 4, 5, 6, 7, 8, 9, 10, 11, 12, 13, 14, 15, 16, 17, 18, 19,
   20, 21, 0x7F000001]

/-! ### The `align16` rounding used throughout the source

Python 2 `((x + 15)/16)*16` on non-negative integers is integer division. -/

/-- Round `x` up to a multiple of 16 via `((x + 15)/16)*16`
(source lines 64-65, 69-70, 430-431). -/
def align16 (x : Nat) : Nat := ((x + 15) / 16) * 16

/-! ### Constructor (`JPEGDecoder.__init__`, source lines 31-120)

The constructor computes `in_buf_size` and `out_buf_size`, then either
returns early on an unsupported output color format (leaving the instance
not-ready, with no component creation or `Setup` attempted), or proceeds to
create the two components and call `Setup`.  The model covers the pure
prefix, recording in `proceedsToSetup` whether control reaches the
component-creation / `Setup` part of the constructor. -/

structure InitState where
  out_width : Nat
  out_height : Nat
  out_format : Nat
  in_width : Nat
  in_height : Nat
  ready : Bool
  setup_complete : Bool
  in_buf_size : Nat
  /-- Holds `none` when the constructor returned before assigning `out_buf_size`. -/
  out_buf_size : Option Nat
  /-- Whether control reaches component creation and the `Setup` call. -/
  proceedsToSetup : Bool
  deriving Repr, DecidableEq

/-- Embedding of `JPEGDecoder.__init__` up to the `Setup` call
(source lines 50-120). -/
def JPEGDecoder_init (out_width out_height out_format in_width in_height : Nat) :
    InitState :=
  let w := align16 in_width
  let h := align16 in_height
  let in_buf_size := (w * h) / 32
  let w := align16 out_width
  let h := align16 out_height
  let sz := w * h
  let base : InitState :=
    { out_width := out_width, out_height := out_height,
      out_format := out_format, in_width := in_width, in_height := in_height,
      ready := false, setup_complete := false,
      in_buf_size := in_buf_size, out_buf_size := none,
      proceedsToSetup := false }
  if out_format = OMX_COLOR_FormatYUV420PackedPlanar then
    { base with out_buf_size := some sz, proceedsToSetup := true }
  else if out_format = OMX_COLOR_Format16bitRGB565 then
    { base with out_buf_size := some (sz * 2), proceedsToSetup := true }
  else if out_format = OMX_COLOR_Format32bitABGR8888 then
    { base with out_buf_size := some (sz * 4), proceedsToSetup := true }
  else
    base

/-- Bytes per pixel of a supported output color format, as named by the
spec's `bytesPerPixel`: 1 for YUV420PackedPlanar, 2 for RGB565, 4 for
ABGR8888. -/
def bytesPerPixel (fmt : Nat) : Nat :=
  if fmt = OMX_COLOR_FormatYUV420PackedPlanar then 1
  else if fmt = OMX_COLOR_Format16bitRGB565 then 2
  else if fmt = OMX_COLOR_Format32bitABGR8888 then 4
  else 0

/-! ### Image port definitions and `SetImagePortDefinition`
(source lines 339-445)

`SetImagePortDefinition` reads the current port definition from the
hardware, checks it is an image port (`eDomain == 2`), overlays the
requested fields on the local copy keeping unspecified (`-1`) fields,
counts changed fields in `n` and changed coding/color fields in `m`, and
then issues either no call (`n <= 0`), a full `SetPortDefinition`
(`n > m`, after recomputing `nSliceHeight`/`nStride`), or a lightweight
`SetImagePortFormat` (otherwise).  The model starts after a successful
`GetPortDefinition` and returns the hardware call issued. -/

structure ImagePortDef where
  eDomain : Nat
  eCompressionFormat : Nat
  eColorFormat : Nat
  nFrameWidth : Nat
  nFrameHeight : Nat
  nSliceHeight : Nat
  nStride : Nat
  nBufferCountMin : Nat
  nBufferCountActual : Nat
  deriving Repr, DecidableEq

/-- The hardware call issued by `SetImagePortDefinition` when it does not
fail its own checks. -/
inductive PortUpdateAction where
  /-- Case `n <= 0`: the function returns `0` without issuing any call. -/
  | noUpdate
  /-- Call `SetPortDefinition` with the given (mutated) local definition copy. -/
  | fullDefinition (d : ImagePortDef)
  /-- Call `SetImagePortFormat port coding color`. -/
  | formatOnly (coding color : Nat)
  deriving Repr, DecidableEq

/-- Embedding of `JPEGDecoder.SetImagePortDefinition` after a successful
`GetPortDefinition` returned `d0` (source lines 389-445).  The sentinel
`-1` arguments are `Int`; field values are the non-negative `Nat`s of the
source.  `Except.error c` is the function returning the error code `c`
without issuing the final hardware call; `Except.ok a` reports which call
is issued (whose own result the source then returns). -/
def setImagePortDefinition (d0 : ImagePortDef)
    (coding color width height : Int) (num_buffers : Nat) :
    Except Nat PortUpdateAction :=
  if d0.eDomain ≠ 2 then Except.error 1
  else if 0 ≤ coding ∧ coding.toNat ∉ omx_image_coding_names then Except.error 1
  else
    let d1 := if 0 ≤ coding then
        { d0 with eCompressionFormat := coding.toNat } else d0
    let coding1 := if 0 ≤ coding then coding.toNat
        else d0.eCompressionFormat
    let n1 : Nat := if 0 ≤ coding then 1 else 0
    let m1 : Nat := if 0 ≤ coding then 1 else 0
    if 0 ≤ color ∧ color.toNat ∉ omx_color_format_names then Except.error 1
    else
      let d2 := if 0 ≤ color then { d1 with eColorFormat := color.toNat } else d1
      let color1 := if 0 ≤ color then color.toNat else d1.eColorFormat
      let n2 := n1 + if 0 ≤ color then 1 else 0
      let m2 := m1 + if 0 ≤ color then 1 else 0
      let d3 := if 0 ≤ width then { d2 with nFrameWidth := width.toNat } else d2
      let width1 := if 0 ≤ width then width.toNat else d2.nFrameWidth
      let n3 := n2 + if 0 ≤ width then 1 else 0
      let d4 := if 0 ≤ height then { d3 with nFrameHeight := height.toNat } else d3
      let height1 := if 0 ≤ height then height.toNat else d3.nFrameHeight
      let n4 := n3 + if 0 ≤ height then 1 else 0
      let d5 := if num_buffers > d4.nBufferCountMin then
          { d4 with nBufferCountActual := num_buffers } else d4
      if n4 = 0 then Except.ok PortUpdateAction.noUpdate
      else if n4 > m2 then
        let d6 := { d5 with nSliceHeight := align16 height1 }
        let w := align16 width1
        if color1 = OMX_COLOR_FormatYUV420PackedPlanar then
          Except.ok (PortUpdateAction.fullDefinition { d6 with nStride := w })
        else if color1 = OMX_COLOR_Format16bitRGB565 then
          Except.ok (PortUpdateAction.fullDefinition { d6 with nStride := w * 2 })
        else if color1 = OMX_COLOR_Format32bitABGR8888 then
          Except.ok (PortUpdateAction.fullDefinition { d6 with nStride := w * 4 })
        else Except.error 1
      else Except.ok (PortUpdateAction.formatOnly coding1 color1)

/-- A concrete image-port definition used to witness theorems with
hypotheses at explicit inputs. -/
def samplePortDef : ImagePortDef :=
  { eDomain := 2, eCompressionFormat := 0, eColorFormat := 20,
    nFrameWidth := 640, nFrameHeight := 480, nSliceHeight := 480,
    nStride := 640, nBufferCountMin := 1, nBufferCountActual := 1 }

/-! ### `CopyPortDefinition`, `SetupTunnel`, `Setup`, `SetupPipe`
(source lines 300-320, 223-254, 143-220, 256-297)

These methods are chains of hardware calls whose non-zero error codes are
OR-combined (`e |= call()`).  Each hardware call of the external binding is
modelled by an oracle field holding that call's result. -/

/-- Embedding of `JPEGDecoder.CopyPortDefinition` (source lines 300-320):
`getE` is the result of `GetPortDefinition` on the source port, returned
directly when non-zero; otherwise the result of `SetPortDefinition` on the
destination port (`setE`) is returned. -/
def CopyPortDefinition (getE setE : Nat) : Nat :=
  if getE ≠ OMX_ErrorNone then getE else setE

/-- Results of the hardware calls made by `SetupTunnel`, in call order. -/
structure TunnelEnv where
  /-- Result of `GetPortDefinition` on the decoder output port (inside the copy). -/
  copyGetE : Nat
  /-- Result of `SetPortDefinition` on the resizer input port (inside the copy). -/
  copySetE : Nat
  /-- Result of `PlaceOutTunnel` decoder→resizer. -/
  placeE : Nat
  /-- Result of `ChangeState` of the resizer to Executing. -/
  execE : Nat
  /-- Result of `EnableOutTunnel`. -/
  enableE : Nat
  /-- Result of `WaitForPortSettingsChanged` on the resizer output port. -/
  waitE : Nat
  deriving Repr, DecidableEq

/-- Embedding of `JPEGDecoder.SetupTunnel` (source lines 223-254): copy the
decoder output port definition to the resizer input, place the tunnel, move
the resizer to Executing, enable the tunnel — OR-combining those results —
then wait for the resizer output settings-changed event.  The wait's result
is not assigned by the source (line 252), so it does not enter the returned
error value. -/
def SetupTunnel (env : TunnelEnv) : Nat :=
  let e := CopyPortDefinition env.copyGetE env.copySetE
  let e := e ||| env.placeE
  let e := e ||| env.execE
  let e := e ||| env.enableE
  e

/-- Result of `resizerSetOutputDefinition` (source lines 323-336), which
forwards to `SetImagePortDefinition` on the resizer output port: `getE` is
the `GetPortDefinition` result, `d` the definition it returned, `setE` the
result of whichever hardware update call is issued. -/
def resizerSetOutputDefinition (getE : Nat) (d : ImagePortDef) (setE : Nat)
    (coding color width height : Int) (num_buffers : Nat) : Nat :=
  if getE ≠ OMX_ErrorNone then getE
  else
    match setImagePortDefinition d coding color width height num_buffers with
    | Except.error c => c
    | Except.ok PortUpdateAction.noUpdate => 0
    | Except.ok _ => setE

/-- Results of the hardware calls made by `Setup` (source lines 143-220),
in call order. -/
structure SetupEnv where
  /-- Current state of the decoder component. -/
  decCurrentState : Nat
  /-- Current state of the resizer component. -/
  rszCurrentState : Nat
  /-- Result of `ChangeState` of the decoder to Idle in the initial state fix. -/
  decToIdle0E : Nat
  /-- Result of `ChangeState` of the decoder to Loaded in the initial state fix. -/
  decToLoadedE : Nat
  /-- Result of `SetImagePortFormat` (JPEG/Unused) on the decoder input port. -/
  setFmtE : Nat
  /-- Result of `ChangeState` of the decoder to Idle. -/
  decToIdleE : Nat
  /-- Result of `ChangeState` of the decoder to Executing. -/
  decToExecE : Nat
  /-- Result of `EnableBuffers` on the decoder input port: error code. -/
  inBufE : Nat
  /-- Capacities of the allocated decoder input buffers. -/
  inBufSizes : List Nat
  /-- Result of `GetPortDefinition` inside `resizerSetOutputDefinition`. -/
  rszGetDefE : Nat
  /-- Resizer output port definition returned by that read. -/
  rszOutDef : ImagePortDef
  /-- The update call issued by `resizerSetOutputDefinition`. -/
  rszSetDefE : Nat
  /-- Result of `ChangeState` of the resizer to Idle. -/
  rszToIdleE : Nat
  /-- Result of `EnableBuffers` on the resizer output port: error code. -/
  outBufE : Nat
  /-- Capacities of the allocated resizer output buffers. -/
  outBufSizes : List Nat
  deriving Repr, DecidableEq

/-- Fields of the decoder instance written by `Setup`. -/
structure SetupOut where
  e : Nat
  in_buf_size : Nat
  num_in_buf : Nat
  out_buf_size : Nat
  num_out_buf : Nat
  ready : Bool
  deriving Repr, DecidableEq

/-- The `EnableBuffers` post-processing shared by `Setup` and `SetupPipe`
(source lines 178-187, 205-213, 287-295): when the enable succeeded, the
capacity of the first allocated buffer replaces the stored size if it
differs; reading that first buffer of an empty pool raises IndexError
(`none`). -/
def adoptBufferSize (ec : Nat) (sizes : List Nat) (stored : Nat) :
    Option Nat :=
  if ec = OMX_ErrorNone then
    match sizes with
    | [] => none
    | sz :: _ => some (if sz ≠ stored then sz else stored)
  else some stored

/-- Embedding of `JPEGDecoder.Setup` (source lines 143-220).  `none` models
a Python exception: the initial resizer state fix reads the absent
attribute `c_app_data.current` (source line 163) and so raises whenever the
resizer is not in state Loaded, and an empty buffer pool raises IndexError.
The arguments after `alt_setup` are the instance fields `out_format`,
`out_width`, `out_height`, `in_buf_size`, `out_buf_size` as set by the
constructor. -/
def Setup (alt_setup : Bool) (out_format out_width out_height : Nat)
    (in_buf_size out_buf_size : Nat) (env : SetupEnv) : Option SetupOut :=
  let e : Nat := 0
  let e := if env.decCurrentState ≠ OMX_StateLoaded then
      (if env.decCurrentState ≠ OMX_StateIdle then e ||| env.decToIdle0E
       else e) ||| env.decToLoadedE
    else e
  if env.rszCurrentState ≠ OMX_StateLoaded then none
  else
    let e := e ||| env.setFmtE
    let e := e ||| env.decToIdleE
    let e := e ||| env.decToExecE
    let e := e ||| env.inBufE
    let num_in_buf := env.inBufSizes.length
    match adoptBufferSize env.inBufE env.inBufSizes in_buf_size with
    | none => none
    | some in_buf_size =>
      if alt_setup then
        some { e := e, in_buf_size := in_buf_size, num_in_buf := num_in_buf,
               out_buf_size := out_buf_size, num_out_buf := 0,
               ready := e = OMX_ErrorNone }
      else
        let e := e ||| resizerSetOutputDefinition env.rszGetDefE env.rszOutDef
            env.rszSetDefE (OMX_IMAGE_CodingUnused : Nat) (out_format : Nat)
            (out_width : Nat) (out_height : Nat) 0
        let e := e ||| env.rszToIdleE
        let e := e ||| env.outBufE
        let num_out_buf := env.outBufSizes.length
        match adoptBufferSize env.outBufE env.outBufSizes out_buf_size with
        | none => none
        | some out_buf_size =>
          some { e := e, in_buf_size := in_buf_size,
                 num_in_buf := num_in_buf, out_buf_size := out_buf_size,
                 num_out_buf := num_out_buf, ready := e = OMX_ErrorNone }

/-- Results of the hardware calls made by `SetupPipe` beyond the shared
tunnel subroutine (source lines 256-297), in call order. -/
structure PipeEnv where
  /-- Result of `GetPortDefinition` inside `resizerSetOutputDefinition`. -/
  rszGetDefE : Nat
  /-- Resizer output port definition returned by that read. -/
  rszOutDef : ImagePortDef
  /-- The update call issued by `resizerSetOutputDefinition`. -/
  rszSetDefE : Nat
  /-- Result of `ChangeState` of the resizer to Idle. -/
  rszToIdleE : Nat
  /-- The tunnel-setup subroutine's hardware calls. -/
  tun : TunnelEnv
  /-- Result of `EnableBuffers` on the resizer output port: error code. -/
  outBufE : Nat
  /-- Capacities of the allocated resizer output buffers. -/
  outBufSizes : List Nat
  deriving Repr, DecidableEq

/-- Embedding of `JPEGDecoder.SetupPipe` (source lines 256-297).  Takes the
instance fields it reads and returns `(e, out_buf_size, num_out_buf)`;
`none` models the IndexError on an empty buffer pool. -/
def SetupPipe (alt_setup : Bool) (out_format out_width out_height : Nat)
    (out_buf_size num_out_buf : Nat) (env : PipeEnv) :
    Option (Nat × Nat × Nat) :=
  if ¬ alt_setup then
    some (SetupTunnel env.tun, out_buf_size, num_out_buf)
  else
    let e := resizerSetOutputDefinition env.rszGetDefE env.rszOutDef
        env.rszSetDefE (OMX_IMAGE_CodingUnused : Nat) (out_format : Nat)
        (out_width : Nat) (out_height : Nat) 0
    let e := e ||| env.rszToIdleE
    let e := e ||| SetupTunnel env.tun
    let e := e ||| env.outBufE
    let num_out_buf := env.outBufSizes.length
    match adoptBufferSize env.outBufE env.outBufSizes out_buf_size with
    | none => none
    | some out_buf_size => some (e, out_buf_size, num_out_buf)

/-! ### The settings-changed handler (`decoderHandleOutSettingsChanged`,
source lines 448-503) -/

/-- Results of the hardware calls the handler can make, in call order. -/
structure HandlerEnv where
  /-- Result of `WaitForPortSettingsChanged` on the decoder output port. -/
  waitDecE : Nat
  /-- Calls of `SetupPipe` (first-time completion branch). -/
  pipe : PipeEnv
  /-- Result of `DisableOutTunnel` (steady-state branch). -/
  disableE : Nat
  /-- Result of `GetPortDefinition` inside the steady-state copy. -/
  copyGetE : Nat
  /-- Result of `SetPortDefinition` inside the steady-state copy. -/
  copySetE : Nat
  /-- Result of `EnableOutTunnel` (steady-state branch). -/
  enableE : Nat
  deriving Repr, DecidableEq

/-- The decoder-instance and callback state read and written by the
handler. -/
structure HandlerState where
  /-- Field `decoder.c_app_data.event_error`, set asynchronously by the event
  callback of the hardware binding. -/
  event_error : Nat
  setup_complete : Bool
  /-- Field `decoder.c_app_data.port_changed`. -/
  port_changed : Nat
  decoder_out_port : Nat
  alt_setup : Bool
  out_format : Nat
  out_width : Nat
  out_height : Nat
  out_buf_size : Nat
  num_out_buf : Nat
  deriving Repr, DecidableEq

/-- Embedding of `JPEGDecoder.decoderHandleOutSettingsChanged` (source
lines 448-503): returns the error code and the updated state, or `none`
when `SetupPipe` raises.  A non-zero `event_error` is cleared; if it is
`StreamCorrupt` it is returned at once.  Otherwise the first-time branch
waits for the decoder settings-changed event and completes the set-up via
`SetupPipe`; the steady-state branch re-tunnels.  The final
`WaitForPortSettingsChanged` on the resizer output (source line 501) has
its result discarded. -/
def decoderHandleOutSettingsChanged (env : HandlerEnv) (st : HandlerState) :
    Option (Nat × HandlerState) :=
  let e := st.event_error
  let st := if e ≠ OMX_ErrorNone then { st with event_error := OMX_ErrorNone }
    else st
  if e ≠ OMX_ErrorNone ∧ e = OMX_ErrorStreamCorrupt then some (e, st)
  else if ¬ st.setup_complete then
    let e := env.waitDecE
    if e ≠ 0 then some (e, st)
    else
      let st := { st with port_changed := 0 }
      match SetupPipe st.alt_setup st.out_format st.out_width st.out_height
          st.out_buf_size st.num_out_buf env.pipe with
      | none => none
      | some (e, obs, nob) =>
        let st := { st with out_buf_size := obs, num_out_buf := nob }
        let st := if e = 0 then { st with setup_complete := true } else st
        some (e, st)
  else
    if st.port_changed ≠ st.decoder_out_port then some (0, st)
    else
      let st := { st with port_changed := 0 }
      let e := env.disableE
      let e := e ||| CopyPortDefinition env.copyGetE env.copySetE
      let e := e ||| env.enableE
      some (e, st)

/-! ### The conversion session (`ConvertFromFile`, source lines 522-616)

The session loop interacts with the hardware through buffer-free flags
(flipped asynchronously by completion callbacks), `readinto` results, the
settings-changed handler, and the end-of-stream flag.  Those interactions
are modelled by oracles indexed by occurrence: `bufFree`/`readN` by a tick
counted per buffer scanned, `hres` by the number of handler calls made so
far, `eosAt` by the end-of-stream poll timer.  The observable behaviour is
the returned value plus the trace of buffer submissions, handler calls,
fill requests and sleeps.  The outer `while` loop can run forever (e.g.
when no buffer ever frees), so the model takes fuel and reports exhaustion
as result `none`. -/

/-- One observable event of the session loop. -/
inductive SEvent where
  /-- Call of `EmptyThisBuffer` on an input buffer holding `bytes` read bytes. -/
  | submit (bytes : Nat)
  /-- Call of `decoderHandleOutSettingsChanged` that returned `r`. -/
  | handlerCall (r : Nat)
  /-- Call of `FillThisBuffer` on the first resizer output buffer. -/
  | fill
  /-- Call of `time.sleep(0.001)`. -/
  | sleep
  deriving Repr, DecidableEq

/-- The asynchronous inputs of one conversion session. -/
structure SessionEnv where
  /-- Free flag of the input buffer scanned at tick `t`. -/
  bufFree : Nat → Bool
  /-- Result of `f.readinto` for the buffer claimed at tick `t`. -/
  readN : Nat → Nat
  /-- Result of the k-th handler call of the session. -/
  hres : Nat → Nat
  /-- Whether `port_eos == resizer_out_port` at poll `timer` of the
  end-of-stream loop. -/
  eosAt : Nat → Bool
  /-- Whether the final `WaitForBufferFilled` returns non-zero. -/
  fillFailed : Bool

/-- Mutable state threaded through the session loop: remaining input bytes
(`Int`, as Python's subtraction can in principle go negative), the oracle
tick, and the handler-call counter. -/
structure LoopSt where
  to_read : Int
  tick : Nat
  hidx : Nat
  deriving Repr, DecidableEq

/-- Outcome of the inner `for` loop over input buffers. -/
inductive ForOut where
  /-- A `return 0` was executed (a handler call returned non-zero). -/
  | ret (tr : List SEvent)
  /-- The `for` loop finished or broke; `used` is `n_ibuf_used`. -/
  | cont (st : LoopSt) (used : Nat) (tr : List SEvent)
  deriving Repr, DecidableEq

/-- Embedding of the `for n in range(self.num_in_buf)` body of
`ConvertFromFile` (source lines 562-594), processing `n` more buffers:
skip non-free buffers, claim a free one, read into it (`break` on a
non-positive read), submit it, drain the handler (aborting the session on a
non-zero result), request an output fill when an output pool exists, and
`break` once all input is consumed. -/
def forBuf (env : SessionEnv) (num_out_buf : Nat) :
    Nat → LoopSt → Nat → ForOut
  | 0, st, used => ForOut.cont st used []
  | n + 1, st, used =>
    if ¬ env.bufFree st.tick then
      forBuf env num_out_buf n { st with tick := st.tick + 1 } used
    else
      let used := used + 1
      let nread := env.readN st.tick
      let st := { st with tick := st.tick + 1 }
      if nread = 0 then ForOut.cont st used []
      else
        let st := { st with to_read := st.to_read - nread }
        let r := env.hres st.hidx
        let st := { st with hidx := st.hidx + 1 }
        if r ≠ 0 then ForOut.ret [SEvent.submit nread, SEvent.handlerCall r]
        else
          let evs := SEvent.submit nread :: SEvent.handlerCall r ::
            (if num_out_buf > 0 then [SEvent.fill] else [])
          if st.to_read ≤ 0 then ForOut.cont st used evs
          else
            match forBuf env num_out_buf n st used with
            | ForOut.ret tr => ForOut.ret (evs ++ tr)
            | ForOut.cont st' used' tr => ForOut.cont st' used' (evs ++ tr)

/-- Outcome of the outer `while to_read > 0` loop. -/
inductive RunOut where
  /-- A `return 0` was executed. -/
  | ret0 (tr : List SEvent)
  /-- Model fuel ran out while the source loop was still running. -/
  | fuelOut (tr : List SEvent)
  /-- The loop condition became false. -/
  | finished (st : LoopSt) (tr : List SEvent)
  deriving Repr, DecidableEq

/-- Embedding of the `while to_read > 0` loop of `ConvertFromFile` (source
lines 560-600): run the buffer `for` loop, drain the handler once more
(aborting on non-zero), and sleep when no input buffer was free. -/
def whileLoop (env : SessionEnv) (num_in_buf num_out_buf : Nat) :
    Nat → LoopSt → RunOut
  | 0, _ => RunOut.fuelOut []
  | fuel + 1, st =>
    if st.to_read ≤ 0 then RunOut.finished st []
    else
      match forBuf env num_out_buf num_in_buf st 0 with
      | ForOut.ret tr => RunOut.ret0 tr
      | ForOut.cont st' used tr =>
        let r := env.hres st'.hidx
        let st' := { st' with hidx := st'.hidx + 1 }
        let tr := tr ++ [SEvent.handlerCall r]
        if r ≠ 0 then RunOut.ret0 tr
        else
          let tr := tr ++ if used = 0 then [SEvent.sleep] else []
          match whileLoop env num_in_buf num_out_buf fuel st' with
          | RunOut.ret0 tr2 => RunOut.ret0 (tr ++ tr2)
          | RunOut.fuelOut tr2 => RunOut.fuelOut (tr ++ tr2)
          | RunOut.finished s tr2 => RunOut.finished s (tr ++ tr2)

/-- Outcome of the end-of-stream poll loop. -/
inductive EosOut where
  /-- A `return 0` was executed (handler abort, or end-of-stream never seen). -/
  | ret0 (tr : List SEvent)
  /-- End-of-stream reached the resizer output port. -/
  | proceed (st : LoopSt) (tr : List SEvent)
  deriving Repr, DecidableEq

/-- Embedding of the end-of-stream poll of `ConvertFromFile` (source lines
602-610): while the end-of-stream flag has not reached the resizer output
port and `timer < 1000`, drain the handler (aborting on non-zero), sleep
and increment the timer; after the loop, return 0 if the flag still has
not arrived.  Called with `remaining = 1000`, `timer = 0`, so that
`remaining + timer = 1000` throughout. -/
def eosPoll (env : SessionEnv) : Nat → Nat → LoopSt → EosOut
  | 0, timer, st =>
    if env.eosAt timer then EosOut.proceed st [] else EosOut.ret0 []
  | remaining + 1, timer, st =>
    if env.eosAt timer then EosOut.proceed st []
    else
      let r := env.hres st.hidx
      let st := { st with hidx := st.hidx + 1 }
      if r ≠ 0 then EosOut.ret0 [SEvent.handlerCall r]
      else
        match eosPoll env remaining (timer + 1) st with
        | EosOut.ret0 tr =>
          EosOut.ret0 (SEvent.handlerCall r :: SEvent.sleep :: tr)
        | EosOut.proceed s tr =>
          EosOut.proceed s (SEvent.handlerCall r :: SEvent.sleep :: tr)

/-- Result of one `ConvertFromFile` call: the returned value (`none` when
the model's fuel ran out with the source still looping), the event trace,
and the decoder's `ready` flag after the call. -/
structure ConvertResult where
  result : Option Nat
  trace : List SEvent
  ready : Bool
  deriving Repr, DecidableEq

/-- Embedding of `JPEGDecoder.ConvertFromFile` (source lines 522-616):
return 0 at once when the decoder is not ready, the file cannot be opened,
or its size is zero; otherwise run the input loop, the end-of-stream poll
and the final `WaitForBufferFilled`, returning the file size on success.
The source never assigns `self.ready`, so the resulting `ready` flag is
the one passed in. -/
def ConvertFromFile (ready : Bool) (openOK : Bool) (f_size : Nat)
    (num_in_buf num_out_buf : Nat) (env : SessionEnv) (fuel : Nat) :
    ConvertResult :=
  if ¬ ready then { result := some 0, trace := [], ready := ready }
  else if ¬ openOK then { result := some 0, trace := [], ready := ready }
  else if f_size = 0 then { result := some 0, trace := [], ready := ready }
  else
    let st0 : LoopSt := { to_read := (f_size : Int), tick := 0, hidx := 0 }
    match whileLoop env num_in_buf num_out_buf fuel st0 with
    | RunOut.ret0 tr => { result := some 0, trace := tr, ready := ready }
    | RunOut.fuelOut tr => { result := none, trace := tr, ready := ready }
    | RunOut.finished st tr =>
      match eosPoll env 1000 0 st with
      | EosOut.ret0 tr2 =>
        { result := some 0, trace := tr ++ tr2, ready := ready }
      | EosOut.proceed _ tr2 =>
        if env.fillFailed then
          { result := some 0, trace := tr ++ tr2, ready := ready }
        else
          { result := some f_size, trace := tr ++ tr2, ready := ready }

/-! ### Concrete sample inputs used by witness theorems -/

/-- A hardware environment for `Setup` where every call succeeds, one input
buffer of capacity 100 and one output buffer of capacity 200 are
allocated, and both components start in state Loaded. -/
def sampleSetupEnv : SetupEnv :=
  { decCurrentState := OMX_StateLoaded, rszCurrentState := OMX_StateLoaded,
    decToIdle0E := 0, decToLoadedE := 0, setFmtE := 0, decToIdleE := 0,
    decToExecE := 0, inBufE := 0, inBufSizes := [100],
    rszGetDefE := 0, rszOutDef := samplePortDef, rszSetDefE := 0,
    rszToIdleE := 0, outBufE := 0, outBufSizes := [200] }

/-- A hardware environment for `SetupPipe` where every call succeeds and
one output buffer of capacity 200 is allocated. -/
def samplePipeEnv : PipeEnv :=
  { rszGetDefE := 0, rszOutDef := samplePortDef, rszSetDefE := 0,
    rszToIdleE := 0,
    tun := { copyGetE := 0, copySetE := 0, placeE := 0, execE := 0,
             enableE := 0, waitE := 0 },
    outBufE := 0, outBufSizes := [200] }

/-- A hardware environment for the settings-changed handler where every
call succeeds. -/
def sampleHandlerEnv : HandlerEnv :=
  { waitDecE := 0, pipe := samplePipeEnv, disableE := 0, copyGetE := 0,
    copySetE := 0, enableE := 0 }

/-- A handler state in steady state with no pending event. -/
def sampleHandlerState : HandlerState :=
  { event_error := 0, setup_complete := true, port_changed := 0,
    decoder_out_port := 320, alt_setup := false, out_format := 6,
    out_width := 1104, out_height := 621, out_buf_size := 2000,
    num_out_buf := 1 }

/-- A session environment where every input buffer is free, each read
yields 4096 bytes, every handler call succeeds, end-of-stream is already
flagged, and the final wait succeeds. -/
def sampleSessionEnv : SessionEnv :=
  { bufFree := fun _ => true, readN := fun _ => 4096, hres := fun _ => 0,
    eosAt := fun _ => true, fillFailed := false }

/-- All handler calls in the trace returned zero. -/
def allZeroCalls : List SEvent → Prop
  | [] => True
  | SEvent.handlerCall r :: tl => r = 0 ∧ allZeroCalls tl
  | _ :: tl => allZeroCalls tl

/-- The trace ends in a non-zero handler call and every earlier handler
call returned zero: the shape of a trace truncated by a handler abort. -/
def abortTrace (tr : List SEvent) : Prop :=
  ∃ u r, allZeroCalls u ∧ r ≠ 0 ∧ tr = u ++ [SEvent.handlerCall r]

end OmxJpgDec

namespace OmxJpgDec

/-! ### Claims C1, C5, C7 -/

/-- C1: For every supported output color format F in
{packed-planar-YUV420, RGB565, ABGR8888} and every `out_width`,
`out_height`, the output buffer size computed by the `JPEGDecoder`
constructor equals `align16 out_width * align16 out_height *
bytesPerPixel F`, where `bytesPerPixel` is 1 for YUV420PackedPlanar,
2 for RGB565 and 4 for ABGR8888. -/
theorem out_buf_size_eq_align16_times_bpp
    (out_width out_height out_format in_width in_height : Nat)
    (hF : out_format = OMX_COLOR_FormatYUV420PackedPlanar ∨
          out_format = OMX_COLOR_Format16bitRGB565 ∨
          out_format = OMX_COLOR_Format32bitABGR8888) :
    (JPEGDecoder_init out_width out_height out_format
        in_width in_height).out_buf_size =
      some (align16 out_width * align16 out_height * bytesPerPixel out_format) := by
  rcases hF with h | h | h <;> subst h <;>
    simp [JPEGDecoder_init, bytesPerPixel, OMX_COLOR_FormatYUV420PackedPlanar,
      OMX_COLOR_Format16bitRGB565, OMX_COLOR_Format32bitABGR8888,
      Nat.mul_comm]

/-- Witness for C1 at a concrete input: format RGB565, 1104×621 output. -/
theorem out_buf_size_eq_align16_times_bpp_witness :
    (JPEGDecoder_init 1104 621 OMX_COLOR_Format16bitRGB565 1920 1080).out_buf_size
      = some (align16 1104 * align16 621 * bytesPerPixel OMX_COLOR_Format16bitRGB565) :=
  out_buf_size_eq_align16_times_bpp 1104 621 OMX_COLOR_Format16bitRGB565 1920 1080
    (Or.inr (Or.inl rfl))

/-- C5: If the constructor is given an `out_format` outside the supported set
{YUV420PackedPlanar, RGB565, ABGR8888}, construction fails fast: `ready`
stays `false` and control never reaches component creation or `Setup`
(`proceedsToSetup = false`), so no later setup or negotiation step is
attempted. -/
theorem init_unsupported_format_fails_fast
    (out_width out_height out_format in_width in_height : Nat)
    (hF : out_format ≠ OMX_COLOR_FormatYUV420PackedPlanar ∧
          out_format ≠ OMX_COLOR_Format16bitRGB565 ∧
          out_format ≠ OMX_COLOR_Format32bitABGR8888) :
    (JPEGDecoder_init out_width out_height out_format
        in_width in_height).ready = false ∧
    (JPEGDecoder_init out_width out_height out_format
        in_width in_height).proceedsToSetup = false := by
  obtain ⟨h1, h2, h3⟩ := hF
  simp [JPEGDecoder_init, h1, h2, h3]

/-- Witness for C5 at the concrete unsupported format code 999. -/
theorem init_unsupported_format_fails_fast_witness :
    (JPEGDecoder_init 1920 1080 999 1920 1080).ready = false ∧
    (JPEGDecoder_init 1920 1080 999 1920 1080).proceedsToSetup = false :=
  init_unsupported_format_fails_fast 1920 1080 999 1920 1080
    (by refine ⟨?_, ?_, ?_⟩ <;> decide)

/-- The function `align16` always lands on a multiple of 16. -/
theorem dvd16_align16 (x : Nat) : 16 ∣ align16 x :=
  ⟨(x + 15) / 16, (Nat.mul_comm _ _)⟩

/-- Any multiple of an `align16` value is a multiple of 16. -/
theorem dvd16_align16_mul (x k : Nat) : 16 ∣ align16 x * k :=
  (dvd16_align16 x).mul_right k

set_option maxHeartbeats 6000000 in
/-- C2: On an image port with supported coding/color: if only coding and/or
color are specified (width and height left unspecified), the update goes
through the lightweight `SetImagePortFormat` call; if width or height is
also specified, `nSliceHeight` is recomputed as `align16 height` and
`nStride` as `align16 width` scaled by the bytes-per-pixel of the effective
color format (both multiples of 16) before the full `SetPortDefinition`
call; fields left unspecified keep their previous values. -/
theorem setImagePortDefinition_partial_update
    (d : ImagePortDef) (coding color width height : Int) (nb : Nat)
    (hdom : d.eDomain = 2)
    (hcoding : coding < 0 ∨ (0 ≤ coding ∧ coding.toNat ∈ omx_image_coding_names))
    (hcolor : color < 0 ∨ (0 ≤ color ∧ color.toNat ∈ omx_color_format_names)) :
    ((width < 0 → height < 0 → (0 ≤ coding ∨ 0 ≤ color) →
      setImagePortDefinition d coding color width height nb =
        Except.ok (PortUpdateAction.formatOnly
          (if 0 ≤ coding then coding.toNat else d.eCompressionFormat)
          (if 0 ≤ color then color.toNat else d.eColorFormat)))) ∧
    ((0 ≤ width ∨ 0 ≤ height) →
      (if 0 ≤ color then color.toNat else d.eColorFormat) =
          OMX_COLOR_FormatYUV420PackedPlanar ∨
      (if 0 ≤ color then color.toNat else d.eColorFormat) =
          OMX_COLOR_Format16bitRGB565 ∨
      (if 0 ≤ color then color.toNat else d.eColorFormat) =
          OMX_COLOR_Format32bitABGR8888 →
      ∃ d', setImagePortDefinition d coding color width height nb =
              Except.ok (PortUpdateAction.fullDefinition d') ∧
        d'.nSliceHeight =
          align16 (if 0 ≤ height then height.toNat else d.nFrameHeight) ∧
        d'.nStride =
          align16 (if 0 ≤ width then width.toNat else d.nFrameWidth) *
            bytesPerPixel (if 0 ≤ color then color.toNat else d.eColorFormat) ∧
        16 ∣ d'.nSliceHeight ∧ 16 ∣ d'.nStride ∧
        (¬ 0 ≤ coding → d'.eCompressionFormat = d.eCompressionFormat) ∧
        (¬ 0 ≤ color → d'.eColorFormat = d.eColorFormat) ∧
        (¬ 0 ≤ width → d'.nFrameWidth = d.nFrameWidth) ∧
        (¬ 0 ≤ height → d'.nFrameHeight = d.nFrameHeight) ∧
        (¬ nb > d.nBufferCountMin →
          d'.nBufferCountActual = d.nBufferCountActual)) := by
  constructor
  · intro hw hh hcc
    have hw' : ¬ (0 ≤ width) := by omega
    have hh' : ¬ (0 ≤ height) := by omega
    rcases hcoding with hc | ⟨hc, hcm⟩ <;>
      rcases hcolor with hl | ⟨hl, hlm⟩
    · rcases hcc with h | h <;> omega
    · have hc' : ¬ (0 ≤ coding) := by omega
      simp [setImagePortDefinition, hdom, hc', hl, hlm, hw', hh']
    · have hl' : ¬ (0 ≤ color) := by omega
      simp [setImagePortDefinition, hdom, hc, hcm, hl', hw', hh']
    · simp [setImagePortDefinition, hdom, hc, hcm, hl, hlm, hw', hh']
  · intro hwh hcol
    have hcm : 0 ≤ coding → coding.toNat ∈ omx_image_coding_names := by
      rcases hcoding with h | ⟨h1, h2⟩
      · omega
      · exact fun _ => h2
    have hlm : 0 ≤ color → color.toNat ∈ omx_color_format_names := by
      rcases hcolor with h | ⟨h1, h2⟩
      · omega
      · exact fun _ => h2
    clear hcoding hcolor
    by_cases hc : 0 ≤ coding <;> by_cases hl : 0 ≤ color <;>
      by_cases hw : 0 ≤ width <;> by_cases hh : 0 ≤ height <;>
      by_cases hnb : d.nBufferCountMin < nb <;>
      first
        | exact absurd hwh (by omega)
        | (rcases hcol with h | h | h <;> simp only [hl, if_true, if_false] at h <;>
            first
              | simp [setImagePortDefinition, hdom, hc, hl, hw, hh, hnb, h,
                  hcm hc, bytesPerPixel, dvd16_align16, dvd16_align16_mul,
                  omx_color_format_names,
                  OMX_COLOR_FormatYUV420PackedPlanar,
                  OMX_COLOR_Format16bitRGB565, OMX_COLOR_Format32bitABGR8888]
              | simp [setImagePortDefinition, hdom, hc, hl, hw, hh, hnb, h,
                  bytesPerPixel, dvd16_align16, dvd16_align16_mul,
                  omx_color_format_names,
                  OMX_COLOR_FormatYUV420PackedPlanar,
                  OMX_COLOR_Format16bitRGB565, OMX_COLOR_Format32bitABGR8888])

/-- Witness for C2 at a concrete input: setting color RGB565 and size
1104×621 on `samplePortDef` goes through the full-definition path with
`nSliceHeight = align16 621` and `nStride = align16 1104 * 2`. -/
theorem setImagePortDefinition_partial_update_witness :
    ∃ d', setImagePortDefinition samplePortDef (-1) 6 1104 621 0 =
        Except.ok (PortUpdateAction.fullDefinition d') ∧
      d'.nSliceHeight = align16 621 ∧ d'.nStride = align16 1104 * 2 := by
  obtain ⟨d', h1, h2, h3, h4⟩ :=
    (setImagePortDefinition_partial_update samplePortDef (-1) 6 1104 621 0 rfl
        (Or.inl (by decide)) (Or.inr ⟨by decide, by decide⟩)).2
      (Or.inl (by decide)) (by decide)
  refine ⟨d', h1, ?_, ?_⟩
  · simpa using h2
  · simpa [bytesPerPixel, samplePortDef, OMX_COLOR_FormatYUV420PackedPlanar,
      OMX_COLOR_Format16bitRGB565, OMX_COLOR_Format32bitABGR8888] using h3

/-- C8: If `SetImagePortDefinition` is called on an image port with coding,
color, width and height all left unspecified (`-1`), it returns `0` and
issues no port update at all: even a `num_buffers`-only request exceeding
the port's minimum buffer count is silently discarded (the local copy's
`nBufferCountActual` is modified but never written to the hardware). -/
theorem setImagePortDefinition_num_buffers_only_discarded
    (d : ImagePortDef) (nb : Nat)
    (hdom : d.eDomain = 2) (hnb : nb > d.nBufferCountMin) :
    setImagePortDefinition d (-1) (-1) (-1) (-1) nb =
      Except.ok PortUpdateAction.noUpdate := by
  simp [setImagePortDefinition, hdom]

/-- Witness for C8: requesting 8 buffers (above the minimum 1) on
`samplePortDef` with everything else unspecified issues no update. -/
theorem setImagePortDefinition_num_buffers_only_discarded_witness :
    setImagePortDefinition samplePortDef (-1) (-1) (-1) (-1) 8 =
      Except.ok PortUpdateAction.noUpdate :=
  setImagePortDefinition_num_buffers_only_discarded samplePortDef 8
    rfl (by decide)

/-- C7: For every non-negative integer x, `align16 x = ((x + 15) / 16) * 16`
is idempotent (`align16 (align16 x) = align16 x`) and satisfies
`x ≤ align16 x`. -/
theorem align16_idempotent_and_ge (x : Nat) :
    align16 (align16 x) = align16 x ∧ x ≤ align16 x := by
  constructor
  · unfold align16
    have h : ((x + 15) / 16 * 16 + 15) / 16 = (x + 15) / 16 := by
      rw [Nat.mul_comm ((x + 15) / 16) 16, Nat.mul_add_div (by norm_num)]
      norm_num
    rw [h]
  · unfold align16
    omega

/-- A bitwise OR of naturals is zero only when both operands are zero:
the arithmetic core of the `e |= call()` error-accumulation pattern. -/
theorem lor_eq_zero {a b : Nat} (h : a ||| b = 0) : a = 0 ∧ b = 0 := by
  constructor
  · apply Nat.eq_of_testBit_eq
    intro i
    have hbit := congrArg (fun x => Nat.testBit x i) h
    simp only [Nat.testBit_lor] at hbit
    simp only [Nat.zero_testBit] at hbit ⊢
    exact (Bool.or_eq_false_iff.mp hbit).1
  · apply Nat.eq_of_testBit_eq
    intro i
    have hbit := congrArg (fun x => Nat.testBit x i) h
    simp only [Nat.testBit_lor] at hbit
    simp only [Nat.zero_testBit] at hbit ⊢
    exact (Bool.or_eq_false_iff.mp hbit).2

/-- Counterexample to C6 as stated: when the final
`WaitForPortSettingsChanged` on the resizer output port is the only
failing step (result 1), `SetupTunnel` still returns 0, because the source
discards that wait's result (line 252). -/
theorem setupTunnel_wait_error_discarded_cex :
    ({ copyGetE := 0, copySetE := 0, placeE := 0, execE := 0,
       enableE := 0, waitE := 1 } : TunnelEnv).waitE ≠ 0 ∧
    SetupTunnel { copyGetE := 0, copySetE := 0, placeE := 0, execE := 0,
                  enableE := 0, waitE := 1 } = 0 := by
  decide

/-- C6 (amended): every non-zero error code produced by copying the
decode-output port definition to the resize input, placing the tunnel,
moving the resize stage to Executing, or enabling the tunnel is
OR-combined into the value `SetupTunnel` returns — so if any of those four
steps fails, `SetupTunnel` returns non-zero — but the result of the final
wait for the resize-output settings-changed event is discarded, not
combined. -/
theorem setupTunnel_or_combines_first_four (env : TunnelEnv) :
    SetupTunnel env =
      ((CopyPortDefinition env.copyGetE env.copySetE ||| env.placeE) |||
        env.execE) ||| env.enableE ∧
    ((CopyPortDefinition env.copyGetE env.copySetE ≠ 0 ∨ env.placeE ≠ 0 ∨
        env.execE ≠ 0 ∨ env.enableE ≠ 0) → SetupTunnel env ≠ 0) ∧
    (∀ w, SetupTunnel { env with waitE := w } = SetupTunnel env) := by
  refine ⟨rfl, ?_, fun w => rfl⟩
  intro h hz
  rw [SetupTunnel] at hz
  obtain ⟨h3, h4⟩ := lor_eq_zero hz
  obtain ⟨h5, h6⟩ := lor_eq_zero h3
  obtain ⟨h7, h8⟩ := lor_eq_zero h5
  rcases h with h | h | h | h <;> tauto

/-- Witness for C6 (amended): a failing `PlaceOutTunnel` (error 5) makes
`SetupTunnel` return non-zero. -/
theorem setupTunnel_or_combines_first_four_witness :
    SetupTunnel { copyGetE := 0, copySetE := 0, placeE := 5, execE := 0,
                  enableE := 0, waitE := 0 } ≠ 0 :=
  (setupTunnel_or_combines_first_four _).2.1 (Or.inr (Or.inl (by decide)))

/-- C9: When the settings-changed handler observes an asynchronous
decode-stage error other than `StreamCorrupt`, it clears the flag (resets
`event_error` to zero) and continues normally: the handler behaves exactly
as it would with no pending error, so the error value is neither returned
nor recorded anywhere. -/
theorem handler_clears_non_corrupt_error
    (env : HandlerEnv) (st : HandlerState)
    (h1 : st.event_error ≠ OMX_ErrorNone)
    (h2 : st.event_error ≠ OMX_ErrorStreamCorrupt) :
    decoderHandleOutSettingsChanged env st =
      decoderHandleOutSettingsChanged env
        { st with event_error := OMX_ErrorNone } := by
  rw [decoderHandleOutSettingsChanged, decoderHandleOutSettingsChanged]
  simp [h1, h2]

/-- Witness for C9: a pending error 7 (not `StreamCorrupt`) leads to the
same handler outcome as no pending error. -/
theorem handler_clears_non_corrupt_error_witness :
    decoderHandleOutSettingsChanged sampleHandlerEnv
        { sampleHandlerState with event_error := 7 } =
      decoderHandleOutSettingsChanged sampleHandlerEnv
        { { sampleHandlerState with event_error := 7 } with
          event_error := OMX_ErrorNone } :=
  handler_clears_non_corrupt_error sampleHandlerEnv
    { sampleHandlerState with event_error := 7 } (by decide) (by decide)

/-- The predicate `allZeroCalls` is closed under concatenation. -/
theorem allZeroCalls_append {u w : List SEvent} (hu : allZeroCalls u)
    (hw : allZeroCalls w) : allZeroCalls (u ++ w) := by
  induction u with
  | nil => simpa using hw
  | cons a tl ih =>
    cases a with
    | handlerCall r => exact ⟨hu.1, ih hu.2⟩
    | submit b => exact ih hu
    | fill => exact ih hu
    | sleep => exact ih hu

/-- Prefixing an abort-shaped trace with zero-result handler calls keeps
it abort-shaped. -/
theorem abortTrace_append {u w : List SEvent} (hu : allZeroCalls u)
    (hw : abortTrace w) : abortTrace (u ++ w) := by
  obtain ⟨u2, r, h1, h2, h3⟩ := hw
  exact ⟨u ++ u2, r, allZeroCalls_append hu h1, h2,
    by rw [h3, List.append_assoc]⟩

/-- In a trace whose handler calls all returned zero, any handler call
occurring anywhere returned zero. -/
theorem allZeroCalls_split :
    ∀ (u : List SEvent) {r : Nat} {v : List SEvent},
      allZeroCalls (u ++ SEvent.handlerCall r :: v) → r = 0
  | [], _, _, h => h.1
  | a :: tl, r, v, h => by
    cases a with
    | handlerCall r2 => exact allZeroCalls_split tl h.2
    | submit b => exact allZeroCalls_split tl h
    | fill => exact allZeroCalls_split tl h
    | sleep => exact allZeroCalls_split tl h

/-- In an abort-shaped trace, a non-zero handler call can only be the very
last event. -/
theorem abortTrace_last {tr u : List SEvent} {r : Nat} {v : List SEvent}
    (h : abortTrace tr) (heq : tr = u ++ SEvent.handlerCall r :: v)
    (hr : r ≠ 0) : v = [] := by
  obtain ⟨u2, r2, hz, hr2, h3⟩ := h
  subst h3
  rcases List.eq_nil_or_concat v with hv | ⟨v2, b, rfl⟩
  · exact hv
  · exfalso
    have heq2 : (u ++ SEvent.handlerCall r :: v2) ++ [b] =
        u2 ++ [SEvent.handlerCall r2] := by
      simpa using heq.symm
    obtain ⟨h4, h5⟩ := List.append_inj' heq2 rfl
    rw [← h4] at hz
    exact hr (allZeroCalls_split u hz)

/-- An optional fill request contains no handler calls. -/
theorem allZeroCalls_fill_opt (c : Prop) [Decidable c] :
    allZeroCalls (if c then [SEvent.fill] else []) := by
  split <;> simp [allZeroCalls]

/-- The per-iteration events of a non-aborting buffer submission all carry
zero handler results. -/
theorem allZeroCalls_submit_events (b : Nat) (rest : List SEvent)
    (h : allZeroCalls rest) :
    allZeroCalls (SEvent.submit b :: SEvent.handlerCall 0 :: rest) :=
  ⟨rfl, h⟩

/-- Trace shape of the buffer `for` loop: a `return 0` leaves an
abort-shaped trace, and a normal completion leaves a trace whose handler
calls all returned zero. -/
theorem forBuf_trace_shape (env : SessionEnv) (nob : Nat) :
    ∀ (n : Nat) (st : LoopSt) (used : Nat),
      (∀ tr, forBuf env nob n st used = ForOut.ret tr → abortTrace tr) ∧
      (∀ st2 used2 tr, forBuf env nob n st used = ForOut.cont st2 used2 tr →
        allZeroCalls tr) := by
  intro n
  induction n with
  | zero =>
    intro st used
    constructor
    · intro tr h
      simp [forBuf] at h
    · intro st2 used2 tr h
      simp [forBuf] at h
      obtain ⟨-, -, h3⟩ := h
      rw [h3]
      simp [allZeroCalls]
  | succ n ih =>
    intro st used
    constructor
    · intro tr h
      rw [forBuf] at h
      by_cases hfree : env.bufFree st.tick
      · by_cases hread : env.readN st.tick = 0
        · simp [hfree, hread] at h
        · by_cases hr : env.hres st.hidx = 0
          · by_cases hto : st.to_read - (env.readN st.tick : Int) ≤ 0
            · simp [hfree, hread, hr, hto] at h
            · simp only [hfree, hread, hr, hto, not_true_eq_false,
                not_false_eq_true, if_true, if_false, ite_true, ite_false,
                ite_not, if_neg, ne_eq] at h
              cases hrec : forBuf env nob n
                  { to_read := st.to_read - (env.readN st.tick : Int),
                    tick := st.tick + 1, hidx := st.hidx + 1 } (used + 1) with
              | ret tr2 =>
                rw [hrec] at h
                cases h
                exact abortTrace_append (allZeroCalls_submit_events _ _ (allZeroCalls_fill_opt _))
                  ((ih _ _).1 _ hrec)
              | cont st3 used3 tr3 =>
                rw [hrec] at h
                simp at h
          · simp only [hfree, hread, hr, not_true_eq_false,
              not_false_eq_true, if_true, if_false, ite_true, ite_false,
              ne_eq] at h
            cases h
            exact ⟨[SEvent.submit _], _, by simp [allZeroCalls], hr, rfl⟩
      · simp only [hfree, not_false_eq_true, if_true, Bool.false_eq_true,
          ite_true] at h
        exact (ih _ _).1 _ h
    · intro st2 used2 tr h
      rw [forBuf] at h
      by_cases hfree : env.bufFree st.tick
      · by_cases hread : env.readN st.tick = 0
        · simp [hfree, hread] at h
          obtain ⟨-, -, h3⟩ := h
          rw [h3]
          simp [allZeroCalls]
        · by_cases hr : env.hres st.hidx = 0
          · by_cases hto : st.to_read - (env.readN st.tick : Int) ≤ 0
            · simp [hfree, hread, hr, hto] at h
              obtain ⟨-, -, h3⟩ := h
              rw [← h3]
              exact allZeroCalls_submit_events _ _ (allZeroCalls_fill_opt _)
            · simp only [hfree, hread, hr, hto, not_true_eq_false,
                not_false_eq_true, if_true, if_false, ite_true, ite_false,
                ite_not, if_neg, ne_eq] at h
              cases hrec : forBuf env nob n
                  { to_read := st.to_read - (env.readN st.tick : Int),
                    tick := st.tick + 1, hidx := st.hidx + 1 } (used + 1) with
              | ret tr2 =>
                rw [hrec] at h
                simp at h
              | cont st3 used3 tr3 =>
                rw [hrec] at h
                cases h
                exact allZeroCalls_append (allZeroCalls_submit_events _ _ (allZeroCalls_fill_opt _))
                  ((ih _ _).2 _ _ _ hrec)
          · simp only [hfree, hread, hr, not_true_eq_false,
              not_false_eq_true, if_true, if_false, ite_true, ite_false,
              ne_eq] at h
            simp at h
      · simp only [hfree, not_false_eq_true, if_true, Bool.false_eq_true,
          ite_true] at h
        exact (ih _ _).2 _ _ _ h

/-- An optional sleep contains no handler calls. -/
theorem allZeroCalls_sleep_opt (c : Prop) [Decidable c] :
    allZeroCalls (if c then [SEvent.sleep] else []) := by
  split <;> simp [allZeroCalls]

/-- Trace shape of the outer `while` loop: a `return 0` leaves an
abort-shaped trace; fuel exhaustion or normal termination leave traces
whose handler calls all returned zero. -/
theorem whileLoop_trace_shape (env : SessionEnv) (nib nob : Nat) :
    ∀ (fuel : Nat) (st : LoopSt),
      (∀ tr, whileLoop env nib nob fuel st = RunOut.ret0 tr →
        abortTrace tr) ∧
      (∀ tr, whileLoop env nib nob fuel st = RunOut.fuelOut tr →
        allZeroCalls tr) ∧
      (∀ s tr, whileLoop env nib nob fuel st = RunOut.finished s tr →
        allZeroCalls tr) := by
  intro fuel
  induction fuel with
  | zero =>
    intro st
    refine ⟨?_, ?_, ?_⟩
    · intro tr h
      simp [whileLoop] at h
    · intro tr h
      simp [whileLoop] at h
      subst h
      simp [allZeroCalls]
    · intro s tr h
      simp [whileLoop] at h
  | succ fuel ih =>
    intro st
    by_cases hto : st.to_read ≤ 0
    · refine ⟨?_, ?_, ?_⟩
      · intro tr h
        rw [whileLoop] at h
        simp [hto] at h
      · intro tr h
        rw [whileLoop] at h
        simp [hto] at h
      · intro s tr h
        rw [whileLoop] at h
        simp [hto] at h
        rw [h.2]
        simp [allZeroCalls]
    · cases hfor : forBuf env nob nib st 0 with
      | ret tr2 =>
        refine ⟨?_, ?_, ?_⟩
        · intro tr h
          rw [whileLoop] at h
          simp [hto, hfor] at h
          subst h
          exact (forBuf_trace_shape env nob nib st 0).1 _ hfor
        · intro tr h
          rw [whileLoop] at h
          simp [hto, hfor] at h
        · intro s tr h
          rw [whileLoop] at h
          simp [hto, hfor] at h
      | cont st1 used tr1 =>
        have htr1 : allZeroCalls tr1 :=
          (forBuf_trace_shape env nob nib st 0).2 _ _ _ hfor
        by_cases hr : env.hres st1.hidx = 0
        · have hcalls : allZeroCalls (tr1 ++ [SEvent.handlerCall 0]) :=
            allZeroCalls_append htr1 ⟨rfl, trivial⟩
          have hcalls2 : allZeroCalls ((tr1 ++ [SEvent.handlerCall 0]) ++
              (if used = 0 then [SEvent.sleep] else [])) :=
            allZeroCalls_append hcalls (allZeroCalls_sleep_opt _)
          refine ⟨?_, ?_, ?_⟩
          · intro tr h
            rw [whileLoop] at h
            simp only [hto, hfor, hr, if_false, if_true, ite_true,
              ite_false, not_true_eq_false, not_false_eq_true, ne_eq] at h
            cases hrec : whileLoop env nib nob fuel
                { st1 with hidx := st1.hidx + 1 } with
            | ret0 tr3 =>
              rw [hrec] at h
              cases h
              exact abortTrace_append hcalls2 ((ih _).1 _ hrec)
            | fuelOut tr3 =>
              rw [hrec] at h
              simp at h
            | finished s3 tr3 =>
              rw [hrec] at h
              simp at h
          · intro tr h
            rw [whileLoop] at h
            simp only [hto, hfor, hr, if_false, if_true, ite_true,
              ite_false, not_true_eq_false, not_false_eq_true, ne_eq] at h
            cases hrec : whileLoop env nib nob fuel
                { st1 with hidx := st1.hidx + 1 } with
            | ret0 tr3 =>
              rw [hrec] at h
              simp at h
            | fuelOut tr3 =>
              rw [hrec] at h
              cases h
              exact allZeroCalls_append hcalls2 ((ih _).2.1 _ hrec)
            | finished s3 tr3 =>
              rw [hrec] at h
              simp at h
          · intro s tr h
            rw [whileLoop] at h
            simp only [hto, hfor, hr, if_false, if_true, ite_true,
              ite_false, not_true_eq_false, not_false_eq_true, ne_eq] at h
            cases hrec : whileLoop env nib nob fuel
                { st1 with hidx := st1.hidx + 1 } with
            | ret0 tr3 =>
              rw [hrec] at h
              simp at h
            | fuelOut tr3 =>
              rw [hrec] at h
              simp at h
            | finished s3 tr3 =>
              rw [hrec] at h
              cases h
              exact allZeroCalls_append hcalls2 ((ih _).2.2 _ _ hrec)
        · refine ⟨?_, ?_, ?_⟩
          · intro tr h
            rw [whileLoop] at h
            simp only [hto, hfor, hr, if_false, if_true, ite_true,
              ite_false, not_true_eq_false, not_false_eq_true, ne_eq] at h
            cases h
            exact ⟨tr1, _, htr1, hr, rfl⟩
          · intro tr h
            rw [whileLoop] at h
            simp only [hto, hfor, hr, if_false, if_true, ite_true,
              ite_false, not_true_eq_false, not_false_eq_true, ne_eq] at h
            exact absurd h (by simp)
          · intro s tr h
            rw [whileLoop] at h
            simp only [hto, hfor, hr, if_false, if_true, ite_true,
              ite_false, not_true_eq_false, not_false_eq_true, ne_eq] at h
            exact absurd h (by simp)

/-- Trace shape of the end-of-stream poll: a `return 0` leaves an
abort-shaped trace or one whose handler calls all returned zero (the
timeout case); proceeding leaves a trace whose handler calls all returned
zero. -/
theorem eosPoll_trace_shape (env : SessionEnv) :
    ∀ (remaining timer : Nat) (st : LoopSt),
      (∀ tr, eosPoll env remaining timer st = EosOut.ret0 tr →
        abortTrace tr ∨ allZeroCalls tr) ∧
      (∀ s tr, eosPoll env remaining timer st = EosOut.proceed s tr →
        allZeroCalls tr) := by
  intro remaining
  induction remaining with
  | zero =>
    intro timer st
    constructor
    · intro tr h
      rw [eosPoll] at h
      split at h
      · simp at h
      · simp at h
        subst h
        right
        simp [allZeroCalls]
    · intro s tr h
      rw [eosPoll] at h
      split at h
      · simp at h
        rw [h.2]
        simp [allZeroCalls]
      · simp at h
  | succ remaining ih =>
    intro timer st
    by_cases heos : env.eosAt timer
    · constructor
      · intro tr h
        rw [eosPoll] at h
        simp [heos] at h
      · intro s tr h
        rw [eosPoll] at h
        simp [heos] at h
        rw [h.2]
        simp [allZeroCalls]
    · by_cases hr : env.hres st.hidx = 0
      · constructor
        · intro tr h
          rw [eosPoll] at h
          simp only [heos, hr, if_false, if_true, ite_true, ite_false,
            Bool.false_eq_true, not_true_eq_false, not_false_eq_true,
            ne_eq] at h
          cases hrec : eosPoll env remaining (timer + 1)
              { st with hidx := st.hidx + 1 } with
          | ret0 tr2 =>
            rw [hrec] at h
            cases h
            rcases (ih _ _).1 _ hrec with h2 | h2
            · left
              have h5 : abortTrace
                  ([SEvent.handlerCall 0, SEvent.sleep] ++ tr2) :=
                abortTrace_append (by simp [allZeroCalls]) h2
              simpa using h5
            · right
              have h5 : allZeroCalls tr2 := h2
              exact ⟨rfl, h5⟩
          | proceed s2 tr2 =>
            rw [hrec] at h
            simp at h
        · intro s tr h
          rw [eosPoll] at h
          simp only [heos, hr, if_false, if_true, ite_true, ite_false,
            Bool.false_eq_true, not_true_eq_false, not_false_eq_true,
            ne_eq] at h
          cases hrec : eosPoll env remaining (timer + 1)
              { st with hidx := st.hidx + 1 } with
          | ret0 tr2 =>
            rw [hrec] at h
            simp at h
          | proceed s2 tr2 =>
            rw [hrec] at h
            cases h
            have h5 : allZeroCalls tr2 := (ih _ _).2 _ _ hrec
            exact ⟨rfl, h5⟩
      · constructor
        · intro tr h
          rw [eosPoll] at h
          simp only [heos, hr, if_false, if_true, ite_true, ite_false,
            Bool.false_eq_true, not_true_eq_false, not_false_eq_true,
            ne_eq] at h
          cases h
          exact Or.inl ⟨[], _, trivial, hr, rfl⟩
        · intro s tr h
          rw [eosPoll] at h
          simp only [heos, hr, if_false, if_true, ite_true, ite_false,
            Bool.false_eq_true, not_true_eq_false, not_false_eq_true,
            ne_eq] at h
          exact absurd h (by simp)

/-- Shape of a whole `ConvertFromFile` run: either the session aborted —
the trace is abort-shaped and the returned value is 0 — or every handler
call in the trace returned zero. -/
theorem convert_shape (ready openOK : Bool) (f_size nib nob : Nat)
    (env : SessionEnv) (fuel : Nat) :
    (abortTrace (ConvertFromFile ready openOK f_size nib nob env
        fuel).trace ∧
      (ConvertFromFile ready openOK f_size nib nob env fuel).result =
        some 0) ∨
    allZeroCalls (ConvertFromFile ready openOK f_size nib nob env
      fuel).trace := by
  rw [ConvertFromFile]
  by_cases h1 : ready
  case neg => right; simp [h1, allZeroCalls]
  case pos =>
  by_cases h2 : openOK
  case neg => right; simp [h1, h2, allZeroCalls]
  case pos =>
  by_cases h3 : f_size = 0
  case pos => right; simp [h1, h2, h3, allZeroCalls]
  case neg =>
  simp only [h1, h2, h3, if_true, if_false, ite_true, ite_false,
    not_true_eq_false, not_false_eq_true]
  cases hw : whileLoop env nib nob fuel
      { to_read := (f_size : Int), tick := 0, hidx := 0 } with
  | ret0 tr =>
    left
    exact ⟨(whileLoop_trace_shape env nib nob fuel _).1 _ hw, rfl⟩
  | fuelOut tr =>
    right
    exact (whileLoop_trace_shape env nib nob fuel _).2.1 _ hw
  | finished s tr =>
    have htrz : allZeroCalls tr :=
      (whileLoop_trace_shape env nib nob fuel _).2.2 _ _ hw
    dsimp only
    cases he : eosPoll env 1000 0 s with
    | ret0 tr2 =>
      rcases (eosPoll_trace_shape env 1000 0 s).1 _ he with h4 | h4
      · left
        exact ⟨abortTrace_append htrz h4, rfl⟩
      · right
        exact allZeroCalls_append htrz h4
    | proceed s2 tr2 =>
      right
      have h4 : allZeroCalls tr2 :=
        (eosPoll_trace_shape env 1000 0 s).2 _ _ he
      by_cases h6 : env.fillFailed = true <;> simp [h6] <;>
        exact allZeroCalls_append htrz h4

/-- In any `ConvertFromFile` run, a handler call returning a non-zero code
is the final event of the trace and the call returns 0: nothing — in
particular no input-buffer submission — happens after it. -/
theorem convertTrace_nonzero_call_final
    (ready openOK : Bool) (f_size nib nob : Nat) (env : SessionEnv)
    (fuel : Nat) (u : List SEvent) (r : Nat) (v : List SEvent)
    (htr : (ConvertFromFile ready openOK f_size nib nob env fuel).trace =
      u ++ SEvent.handlerCall r :: v)
    (hr : r ≠ 0) :
    v = [] ∧
    (ConvertFromFile ready openOK f_size nib nob env fuel).result =
      some 0 := by
  rcases convert_shape ready openOK f_size nib nob env fuel with
    ⟨habort, hres⟩ | hzero
  · exact ⟨abortTrace_last habort htr hr, hres⟩
  · exact absurd (allZeroCalls_split u (htr ▸ hzero)) hr

/-- C3: If a `StreamCorrupt` asynchronous decode-stage error is pending
when the settings-changed handler runs, the handler returns that error at
once — independently of any hardware-call results, i.e. performing no
further negotiation step — and a `ConvertFromFile` session observing a
`StreamCorrupt` handler result aborts, returning 0 with no event (in
particular no input-buffer submission) after that handler call. -/
theorem streamCorrupt_aborts_session (st : HandlerState)
    (h : st.event_error = OMX_ErrorStreamCorrupt) :
    (∀ env, decoderHandleOutSettingsChanged env st =
        some (OMX_ErrorStreamCorrupt,
          { st with event_error := OMX_ErrorNone })) ∧
    (∀ (ready openOK : Bool) (f_size nib nob : Nat) (senv : SessionEnv)
        (fuel : Nat) (u v : List SEvent),
      (ConvertFromFile ready openOK f_size nib nob senv fuel).trace =
        u ++ SEvent.handlerCall OMX_ErrorStreamCorrupt :: v →
      v = [] ∧
        (ConvertFromFile ready openOK f_size nib nob senv fuel).result =
          some 0) := by
  constructor
  · intro env
    rw [decoderHandleOutSettingsChanged]
    simp [h, OMX_ErrorStreamCorrupt, OMX_ErrorNone]
  · intro ready openOK f_size nib nob senv fuel u v htr
    exact convertTrace_nonzero_call_final ready openOK f_size nib nob senv
      fuel u OMX_ErrorStreamCorrupt v htr
      (by simp [OMX_ErrorStreamCorrupt])

/-- Witness for C3: a pending `StreamCorrupt` in a concrete handler state
is returned at once with the flag cleared. -/
theorem streamCorrupt_aborts_session_witness :
    decoderHandleOutSettingsChanged sampleHandlerEnv
        { sampleHandlerState with event_error := OMX_ErrorStreamCorrupt } =
      some (OMX_ErrorStreamCorrupt,
        { { sampleHandlerState with event_error := OMX_ErrorStreamCorrupt }
            with event_error := OMX_ErrorNone }) :=
  (streamCorrupt_aborts_session
    { sampleHandlerState with event_error := OMX_ErrorStreamCorrupt }
    rfl).1 sampleHandlerEnv

/-- C4: `ConvertFromFile` returns 0 at once when the decoder is not ready,
when the file cannot be opened, or when the file has zero size, leaving
the `ready` flag unchanged in every case (the method never writes it); and
any non-zero value it returns is the file's size. -/
theorem convertFromFile_result_and_ready
    (ready openOK : Bool) (f_size nib nob : Nat) (env : SessionEnv)
    (fuel : Nat) :
    (ready = false →
      ConvertFromFile ready openOK f_size nib nob env fuel =
        { result := some 0, trace := [], ready := ready }) ∧
    (openOK = false →
      ConvertFromFile ready openOK f_size nib nob env fuel =
        { result := some 0, trace := [], ready := ready }) ∧
    (f_size = 0 →
      ConvertFromFile ready openOK f_size nib nob env fuel =
        { result := some 0, trace := [], ready := ready }) ∧
    (ConvertFromFile ready openOK f_size nib nob env fuel).ready = ready ∧
    (∀ r, (ConvertFromFile ready openOK f_size nib nob env fuel).result =
        some r → r = 0 ∨ r = f_size) ∧
    (∀ (st s2 : LoopSt) (tr tr2 : List SEvent),
      ready = true → openOK = true → f_size ≠ 0 →
      whileLoop env nib nob fuel
          { to_read := (f_size : Int), tick := 0, hidx := 0 } =
        RunOut.finished st tr →
      eosPoll env 1000 0 st = EosOut.proceed s2 tr2 →
      env.fillFailed = false →
      (ConvertFromFile ready openOK f_size nib nob env fuel).result =
        some f_size) := by
  by_cases h1 : ready
  case neg =>
    refine ⟨?_, ?_, ?_, ?_, ?_, ?_⟩ <;>
      simp [ConvertFromFile, h1]
  case pos =>
  by_cases h2 : openOK
  case neg =>
    refine ⟨?_, ?_, ?_, ?_, ?_, ?_⟩ <;>
      simp [ConvertFromFile, h1, h2]
  case pos =>
  by_cases h3 : f_size = 0
  case pos =>
    refine ⟨?_, ?_, ?_, ?_, ?_, ?_⟩ <;>
      simp [ConvertFromFile, h1, h2, h3]
  case neg =>
  refine ⟨by simp_all, by simp_all, by simp_all, ?_, ?_, ?_⟩
  · rw [ConvertFromFile]
    simp only [h1, h2, h3, if_true, if_false, ite_true, ite_false,
      not_true_eq_false, not_false_eq_true]
    cases hw : whileLoop env nib nob fuel
        { to_read := (f_size : Int), tick := 0, hidx := 0 } with
    | ret0 tr => rfl
    | fuelOut tr => rfl
    | finished s tr =>
      dsimp only
      cases he : eosPoll env 1000 0 s with
      | ret0 tr2 => rfl
      | proceed s2 tr2 =>
        by_cases h6 : env.fillFailed = true <;> simp [h6]
  · intro r hres
    rw [ConvertFromFile] at hres
    simp only [h1, h2, h3, if_true, if_false, ite_true, ite_false,
      not_true_eq_false, not_false_eq_true] at hres
    cases hw : whileLoop env nib nob fuel
        { to_read := (f_size : Int), tick := 0, hidx := 0 } with
    | ret0 tr =>
      rw [hw] at hres
      simp at hres
      exact Or.inl hres.symm
    | fuelOut tr =>
      rw [hw] at hres
      simp at hres
    | finished s tr =>
      rw [hw] at hres
      dsimp only at hres
      cases he : eosPoll env 1000 0 s with
      | ret0 tr2 =>
        rw [he] at hres
        simp at hres
        exact Or.inl hres.symm
      | proceed s2 tr2 =>
        rw [he] at hres
        by_cases h6 : env.fillFailed = true <;> simp [h6] at hres
        · exact Or.inl hres.symm
        · exact Or.inr hres.symm
  · intro st s2 tr tr2 hready hopen hsz hw he h6
    rw [ConvertFromFile]
    simp only [h1, h2, h3, if_true, if_false, ite_true, ite_false,
      not_true_eq_false, not_false_eq_true]
    rw [hw]
    dsimp only
    rw [he]
    simp [h6]

/-- Witness for C4 at concrete inputs: an unready decoder returns 0 with
`ready` unchanged, and a run in which one 4096-byte read consumes a
4096-byte file, end-of-stream is already flagged and the final wait
succeeds returns the file size 4096. -/
theorem convertFromFile_result_and_ready_witness :
    ConvertFromFile false true 4096 1 1 sampleSessionEnv 2 =
      { result := some 0, trace := [], ready := false } ∧
    (ConvertFromFile true true 4096 1 1 sampleSessionEnv 2).result =
      some 4096 :=
  ⟨(convertFromFile_result_and_ready false true 4096 1 1
      sampleSessionEnv 2).1 rfl,
   (convertFromFile_result_and_ready true true 4096 1 1
      sampleSessionEnv 2).2.2.2.2.2
     { to_read := 0, tick := 1, hidx := 2 }
     { to_read := 0, tick := 1, hidx := 2 }
     [SEvent.submit 4096, SEvent.handlerCall 0, SEvent.fill,
      SEvent.handlerCall 0] []
     rfl rfl (by decide) (by decide) (by decide) rfl⟩

/-- C10: The decoder input buffer size requested at `Setup` — the
constructor's `in_buf_size` — equals `(align16 in_width * align16
in_height) / 32` (integer division); and after a successful `EnableBuffers`
on the decoder input port (in `Setup`) or on the resizer output port (in
`Setup`'s standard path or `SetupPipe`'s alternate path), the stored
buffer-size field is the capacity of the first allocated buffer — in
particular it is replaced whenever that capacity differs from the
request. -/
theorem bufferSize_request_and_adoption
    (out_width out_height out_format in_width in_height : Nat)
    (alt : Bool) (ibs obs nob : Nat) (env : SetupEnv) (penv : PipeEnv)
    (out : SetupOut) :
    ((JPEGDecoder_init out_width out_height out_format in_width
        in_height).in_buf_size =
      (align16 in_width * align16 in_height) / 32) ∧
    (env.inBufE = OMX_ErrorNone →
      ∀ sz rest, env.inBufSizes = sz :: rest →
      Setup alt out_format out_width out_height ibs obs env = some out →
      out.in_buf_size = sz) ∧
    (alt = false → env.outBufE = OMX_ErrorNone →
      ∀ sz rest, env.outBufSizes = sz :: rest →
      Setup alt out_format out_width out_height ibs obs env = some out →
      out.out_buf_size = sz) ∧
    (∀ e obs2 nob2, penv.outBufE = OMX_ErrorNone →
      ∀ sz rest, penv.outBufSizes = sz :: rest →
      SetupPipe true out_format out_width out_height obs nob penv =
        some (e, obs2, nob2) →
      obs2 = sz) := by
  refine ⟨?_, ?_, ?_, ?_⟩
  · rw [JPEGDecoder_init]
    split_ifs <;> rfl
  · intro hec sz rest hsizes hset
    rw [Setup] at hset
    split at hset
    · exact absurd hset (by simp)
    · rw [hec, hsizes] at hset
      have hada : adoptBufferSize OMX_ErrorNone (sz :: rest) ibs =
          some (if sz ≠ ibs then sz else ibs) := by
        simp [adoptBufferSize]
      rw [hada] at hset
      by_cases halt : alt = true
      · simp [halt] at hset
        rw [← hset]
        by_cases hne : sz = ibs <;> simp [hne]
      · simp only [Bool.not_eq_true] at halt
        rw [halt] at hset
        cases hadopt : adoptBufferSize env.outBufE env.outBufSizes obs with
        | none =>
          rw [hadopt] at hset
          simp at hset
        | some ob2 =>
          rw [hadopt] at hset
          simp at hset
          rw [← hset]
          by_cases hne : sz = ibs <;> simp [hne]
  · intro halt hec sz rest hsizes hset
    rw [Setup] at hset
    split at hset
    · exact absurd hset (by simp)
    · rw [halt] at hset
      cases hina : adoptBufferSize env.inBufE env.inBufSizes ibs with
      | none =>
        rw [hina] at hset
        simp at hset
      | some ib2 =>
        rw [hina] at hset
        rw [hec, hsizes] at hset
        have hada : adoptBufferSize OMX_ErrorNone (sz :: rest) obs =
            some (if sz ≠ obs then sz else obs) := by
          simp [adoptBufferSize]
        rw [hada] at hset
        simp at hset
        rw [← hset]
        by_cases hne : sz = obs <;> simp [hne]
  · intro e obs2 nob2 hec sz rest hsizes hset
    rw [SetupPipe] at hset
    rw [hec, hsizes] at hset
    have hada : adoptBufferSize OMX_ErrorNone (sz :: rest) obs =
        some (if sz ≠ obs then sz else obs) := by
      simp [adoptBufferSize]
    rw [hada] at hset
    simp at hset
    obtain ⟨-, h7, -⟩ := hset
    rw [← h7]
    by_cases hne : sz = obs <;> simp [hne]

/-- Witness for C10: with one allocated input buffer of capacity 100
against a request of 1000 and one output buffer of capacity 200 against a
request of 2000, `Setup` stores 100 as the input buffer size (and 200 as
the output buffer size). -/
theorem bufferSize_request_and_adoption_witness :
    Setup false 6 1104 621 1000 2000 sampleSetupEnv =
      some { e := 0, in_buf_size := 100, num_in_buf := 1,
             out_buf_size := 200, num_out_buf := 1, ready := true } ∧
    ({ e := 0, in_buf_size := 100, num_in_buf := 1, out_buf_size := 200,
       num_out_buf := 1, ready := true } : SetupOut).in_buf_size = 100 :=
  ⟨by decide,
   (bufferSize_request_and_adoption 1104 621 6 1920 1080 false 1000 2000 0
       sampleSetupEnv samplePipeEnv
       { e := 0, in_buf_size := 100, num_in_buf := 1, out_buf_size := 200,
         num_out_buf := 1, ready := true }).2.1 rfl 100 [] rfl (by decide)⟩
